import Mathlib

/-!
Verification of the planatrip request dispatcher (`src/unnamed/part_000`,
the authoritative superset variant of `api/proxy.js`, and the superseded
variant `src/api/proxy.js`).

The handler is a serverless function: it validates the HTTP method and the
configured API key, builds an upstream payload from the request `type`,
issues one `fetch`, and normalizes the upstream response.  We embed it
shallowly: JSON documents are an inductive `Json` type (numbers as `Rat`,
which covers every numeric literal in the source, e.g. `temperature: 0.1`);
JavaScript property/index access is modelled with `Except`-valued functions
that throw on nullish bases (messages follow V8's TypeError wording, the
engine the hosting runtime uses); the platform's `JSON.parse` is an
abstract component of the environment (`Env.jsonParse`); the network is an
oracle (`FetchOutcome`) chosen by the environment.  Association lists model
JavaScript objects (keys unique, first match wins); `Json.obj` values model
the JSON *serialization* of a JS object, so fields whose value is
JS-`undefined` are dropped at construction (`objDrop`), exactly as
`JSON.stringify` and `res.json` drop them.
-/

namespace PlanATrip

/-- JSON documents.  Numbers are rationals: every number this code ever
builds or inspects is a terminating decimal (`0.1`, `1`, client integers). -/
inductive Json where
  | null : Json
  | bool : Bool → Json
  | num : Rat → Json
  | str : String → Json
  | arr : List Json → Json
  | obj : List (String × Json) → Json

/-- First-match association-list lookup, the model of JS property access on
a plain object. -/
def lookupStr (fs : List (String × Json)) (k : String) : Option Json :=
  match fs with
  | [] => none
  | (k2, v) :: rest => if k2 = k then some v else lookupStr rest k

/-- JS truthiness of a value (`none` models `undefined`). -/
def truthy : Option Json → Bool
  | none => false
  | some .null => false
  | some (.bool b) => b
  | some (.num q) => if q = 0 then false else true
  | some (.str s) => if s = "" then false else true
  | some (.arr _) => true
  | some (.obj _) => true

/-- Render a `Rat` the way JavaScript prints a number, for the terminating
decimals this code manipulates (integers and small decimal literals); other
rationals get a fraction rendering, which no value in this development ever
reaches. -/
def jsNumString (q : Rat) : String :=
  if q.den = 1 then toString q.num
  else
    match (List.range 21).find? (fun k => (10 ^ k) % q.den = 0) with
    | some k =>
        let sign := if q.num < 0 then "-" else ""
        let scaled : Nat := q.num.natAbs * (10 ^ k / q.den)
        let ip := scaled / 10 ^ k
        let fp := scaled % 10 ^ k
        let digits := toString fp
        let padded :=
          String.mk (List.replicate (k - digits.length) (Char.ofNat 48)) ++ digits
        let trimmed :=
          String.mk ((padded.toList.reverse.dropWhile (fun c => c = Char.ofNat 48)).reverse)
        sign ++ toString ip ++ "." ++ trimmed
    | none => toString q.num ++ "/" ++ toString q.den

mutual

/-- JS `String(v)` coercion (`none` is `undefined`).  Arrays print as their
elements joined by commas with nullish elements blank, objects as
`[object Object]`, exactly the `Array.prototype.toString` /
`Object.prototype.toString` behaviour template literals invoke. -/
def jsToStringV : Json → String
  | .null => "null"
  | .bool b => if b then "true" else "false"
  | .num q => jsNumString q
  | .str s => s
  | .arr xs => jsArrJoin xs
  | .obj _ => "[object Object]"

/-- `Array.prototype.join(",")`, the array part of `jsToStringV`. -/
def jsArrJoin : List Json → String
  | [] => ""
  | [x] => jsArrElem x
  | x :: y :: xs => jsArrElem x ++ "," ++ jsArrJoin (y :: xs)

/-- One array element under `join`: `null`/`undefined` print as empty. -/
def jsArrElem : Json → String
  | .null => ""
  | v => jsToStringV v

end

/-- JS string coercion of a possibly-`undefined` value, as a template
literal interpolation performs it. -/
def jsToString : Option Json → String
  | none => "undefined"
  | some v => jsToStringV v

/-- V8's TypeError message for reading property `k` of `undefined`. -/
def readUndefMsg (k : String) : String :=
  "Cannot read properties of undefined (reading \x27" ++ k ++ "\x27)"

/-- V8's TypeError message for reading property `k` of `null`. -/
def readNullMsg (k : String) : String :=
  "Cannot read properties of null (reading \x27" ++ k ++ "\x27)"

/-- Property access on a non-nullish JS value: never throws; non-objects
have none of the properties this code reads, objects are looked up. -/
def jsMemberPure : Json → String → Option Json
  | .obj fs, k => lookupStr fs k
  | _, _ => none

/-- A JS value is nullish (`undefined` or `null`): the condition optional
chaining tests, and the one plain property access throws on. -/
def nullish : Option Json → Bool
  | none => true
  | some .null => true
  | _ => false

/-- Property access lifted to possibly-`undefined` bases that are known
non-nullish (used after an optional-chain guard). -/
def jsMemberOpt : Option Json → String → Option Json
  | some j, k => jsMemberPure j k
  | none, _ => none

/-- JS property access `v.k`: throws a TypeError on nullish `v`, else reads
the property. -/
def jsMember (v : Option Json) (k : String) : Except String (Option Json) :=
  match v with
  | none => .error (readUndefMsg k)
  | some .null => .error (readNullMsg k)
  | some j => .ok (jsMemberPure j k)

/-- Index access `v[i]` on a non-nullish value: array element, string
character, or the numeric-string key of an object. -/
def jsIndexPure : Json → Nat → Option Json
  | .arr xs, i => xs.get? i
  | .str s, i => (s.toList.get? i).map (fun c => Json.str (String.mk [c]))
  | .obj fs, i => lookupStr fs (toString i)
  | _, _ => none

/-- JS index access `v[i]`: throws a TypeError on nullish `v`. -/
def jsIndex (v : Option Json) (i : Nat) : Except String (Option Json) :=
  match v with
  | none => .error (readUndefMsg (toString i))
  | some .null => .error (readNullMsg (toString i))
  | some j => .ok (jsIndexPure j i)

/-- The test `v.length > 0` for a non-throwing `v` (`undefined > 0` is
false in JS; arrays and strings report their length; on plain objects a
numeric `length` property is compared, which is as far as JS coercion can
be exercised by JSON-derived values here). -/
def jsLenGtZero : Option Json → Bool
  | some (.arr xs) => decide (0 < xs.length)
  | some (.str s) => decide (0 < s.length)
  | some (.obj fs) =>
      match lookupStr fs "length" with
      | some (.num q) => decide (0 < q)
      | _ => false
  | _ => false

/-- Build the serialized form of a JS object literal whose field values may
be `undefined`: `JSON.stringify` (and `res.json`) drop such fields. -/
def objDrop (fs : List (String × Option Json)) : Json :=
  Json.obj (fs.filterMap (fun kv => kv.2.map (fun v => (kv.1, v))))

/-- An HTTP response the handler sends: `res.status(status).json(body)`. -/
structure Response where
  status : Nat
  body : Json

/-- One handler invocation's observable outcome: the responses it sent (in
order) and how many outbound upstream calls it issued. -/
structure RunResult where
  sent : List Response
  upstreamCalls : Nat

/-- What the network does for the single `fetch` the handler may issue:
either the fetch promise rejects (transport failure), or a response arrives
with an HTTP `ok` flag and a body whose `response.json()` either parses to
a document or rejects with a message. -/
inductive FetchOutcome where
  | transportError (msg : String)
  | response (ok : Bool) (body : Except String Json)

/-- Ambient platform behaviour the handler relies on: `JSON.parse` over the
text the model returned (abstract: theorems hypothesize its outcome). -/
structure Env where
  jsonParse : String → Except String Json

/-- The `{error: msg}` bodies every error path sends. -/
def errObj (msg : String) : Json :=
  Json.obj [("error", Json.str msg)]

/-- Outcome of the pre-`try` part of a handler invocation: an early
response already sent (405/500/400), a built upstream call, or an uncaught
exception thrown while interpolating the prompt (nullish `body.data`),
which aborts the invocation before any response is sent. -/
inductive BuildStep where
  | early (r : Response)
  | call (url : String) (payload : Json)
  | crash (msg : String)

/-- The `type` switch discriminates with `===` against string cases, so
only a string `type` can match; anything else falls to `default`. -/
def typeName : Option Json → Option String
  | some (.str s) => some s
  | _ => none

/-- The text-generation endpoint both variants target (the `apiUrl`
assigned in each text case of `part_000`). -/
def geminiUrl (key : String) : String :=
  "https://generativelanguage.googleapis.com/v1beta/models/gemini-2.5-flash-preview-09-2025:generateContent?key=" ++ key

/-- The image-generation endpoint of the `generateImage` case. -/
def imagenUrl (key : String) : String :=
  "https://generativelanguage.googleapis.com/v1beta/models/imagen-4.0-generate-001:predict?key=" ++ key

/-- `part_000` itinerary prompt template (lines 30-63).  The first
interpolation evaluated is `data.cities`, so a nullish `body.data` throws
there, before the `try` block; with `data` non-nullish every access is a
plain property read that cannot throw. -/
def part000_itineraryPrompt (data : Option Json) : Except String String :=
  match data with
  | none => .error (readUndefMsg "cities")
  | some .null => .error (readNullMsg "cities")
  | some d =>
    .ok ("\nYou are an AI travel assistant. Your task is to generate a travel itinerary based on the user\x27s request.\nYou MUST format your response *strictly* according to the provided JSON schema.\nDo not add any text, conversational chat, or markdown outside of the final JSON structure.\n\nUser Request:\n- Destination: "
      ++ jsToString (jsMemberPure d "cities") ++ ", " ++ jsToString (jsMemberPure d "country")
      ++ "\n- Staying At (Starting Point): "
      ++ (if truthy (jsMemberPure d "staying-at") then jsToString (jsMemberPure d "staying-at")
          else "Central location")
      ++ " \n- Duration: " ++ jsToString (jsMemberPure d "duration")
      ++ " days\n- Travelers: " ++ jsToString (jsMemberPure d "num-people")
      ++ "\n- Budget: " ++ jsToString (jsMemberPure d "budget")
      ++ "\n- Pace: " ++ jsToString (jsMemberPure d "trip-pace")
      ++ "\n- Accommodation: " ++ jsToString (jsMemberPure d "accommodation-type")
      ++ "\n- Interests: "
      ++ (if truthy (jsMemberPure d "interests") then jsToString (jsMemberPure d "interests")
          else "N/A")
      ++ "\n\nIMPORTANT INSTRUCTIONS:\n1.  If \"Staying At\" is specific (not \x27Central location\x27), you MUST assume the user starts their day there. \n    Optimise the daily order of activities to minimize travel time from that starting point.\n2.  **PERSONAL TOUCH:** For each day, provide one or two specific suggestions for lunch and dinner as a `foodSuggestion`. \n    These should be relevant to the day\x27s activities and location (e.g., \"For dinner, try the famous biryani at Saravana Bhavan near the temple.\").\n\nJSON Schema Instructions:\n1.  **title**: Generate a concise, catchy title for the trip (e.g., \"3-Day Foodie Tour of Rome\").\n2.  **summary**: Write a 2-3 sentence summary of the trip.\n3.  **budgetTier**: Use the user\x27s requested budget (e.g., \""
      ++ jsToString (jsMemberPure d "budget")
      ++ "\").\n4.  **numberOfPeople**: Use the user\x27s requested number (e.g., "
      ++ jsToString (jsMemberPure d "num-people")
      ++ ").\n5.  **costPerHeadUSD**: Estimate a reasonable cost per person in USD (number only).\n6.  **bestSeasonToVisit**: Suggest the best season to visit (e.g., \"Spring (April-June)\").\n7.  **days**: Create an array for each day.\n8.  **day object**: Each day *must* have a \"day\" number, \"theme\", \"city\", \"transportation_tip\", \"foodSuggestion\", and an \"activities\" array.\n9.  **activity object**: Each activity *must* have a \"name\", \"type\",\"details\", \"address\", \"approxCostUSD\", and \"crowdLevel\" (Low, Moderate, or High).\n\nIMPORTANT: Your entire response must be ONLY the JSON object, starting with \x7b and ending with \x7d.\n")

/-- The `responseSchema` literal of `part_000` (with `foodSuggestion`). -/
def part000_itinerarySchema : Json :=
  Json.obj [
    ("type", .str "OBJECT"),
    ("properties", .obj [
      ("title", .obj [("type", .str "STRING")]),
      ("numberOfPeople", .obj [("type", .str "NUMBER")]),
      ("budgetTier", .obj [("type", .str "STRING")]),
      ("costPerHeadUSD", .obj [("type", .str "NUMBER")]),
      ("summary", .obj [("type", .str "STRING")]),
      ("bestSeasonToVisit", .obj [("type", .str "STRING")]),
      ("days", .obj [
        ("type", .str "ARRAY"),
        ("items", .obj [
          ("type", .str "OBJECT"),
          ("properties", .obj [
            ("day", .obj [("type", .str "NUMBER")]),
            ("theme", .obj [("type", .str "STRING")]),
            ("city", .obj [("type", .str "STRING")]),
            ("transportation_tip", .obj [("type", .str "STRING")]),
            ("foodSuggestion", .obj [("type", .str "STRING")]),
            ("activities", .obj [
              ("type", .str "ARRAY"),
              ("items", .obj [
                ("type", .str "OBJECT"),
                ("properties", .obj [
                  ("name", .obj [("type", .str "STRING")]),
                  ("type", .obj [("type", .str "STRING")]),
                  ("crowdLevel", .obj [("type", .str "STRING")]),
                  ("approxCostUSD", .obj [("type", .str "NUMBER")]),
                  ("details", .obj [("type", .str "STRING")]),
                  ("address", .obj [("type", .str "STRING")])]),
                ("required", .arr [.str "name", .str "type", .str "details",
                  .str "approxCostUSD", .str "crowdLevel", .str "address"])])])]),
          ("required", .arr [.str "day", .str "theme", .str "city", .str "activities",
            .str "transportation_tip", .str "foodSuggestion"])])])]),
    ("required", .arr [.str "title", .str "numberOfPeople", .str "budgetTier",
      .str "costPerHeadUSD", .str "summary", .str "bestSeasonToVisit", .str "days"])]

/-- `part_000` itinerary payload: prompt contents plus the low-temperature
generation config carrying the response schema. -/
def part000_itineraryPayload (prompt : String) : Json :=
  Json.obj [
    ("contents", .arr [.obj [("parts", .arr [.obj [("text", .str prompt)]])]]),
    ("generationConfig", .obj [
      ("temperature", .num 0.1),
      ("responseMimeType", .str "application/json"),
      ("responseSchema", part000_itinerarySchema)])]

/-- `part_000` groundedSearch payload: `body.query` passes through raw as
the prompt text (dropped from the serialized payload when `undefined`). -/
def part000_groundedSearchPayload (rest : List (String × Json)) : Json :=
  Json.obj [
    ("contents", .arr [.obj [("parts", .arr [objDrop [("text", lookupStr rest "query")]])]]),
    ("tools", .arr [.obj [("google_search", .obj [])]])]

/-- `part_000` contextualQa prompt (interpolations never throw: they read
off the rest object, which is always an object). -/
def part000_qaPrompt (rest : List (String × Json)) : String :=
  "Regarding the travel activity or location \"" ++ jsToString (lookupStr rest "context")
    ++ "\", please provide a concise and helpful answer to the following user question: \""
    ++ jsToString (lookupStr rest "question") ++ "\""

/-- `part_000` contextualQa payload. -/
def part000_qaPayload (rest : List (String × Json)) : Json :=
  Json.obj [
    ("contents", .arr [.obj [("parts", .arr [.obj [("text", .str (part000_qaPrompt rest))]])]]),
    ("tools", .arr [.obj [("google_search", .obj [])]])]

/-- `part_000` flights prompt: `flightData['flight-origin']` is the first
access, so a nullish `body.data` throws there, before the `try` block. -/
def part000_flightPrompt (fd : Option Json) : Except String String :=
  match fd with
  | none => .error (readUndefMsg "flight-origin")
  | some .null => .error (readNullMsg "flight-origin")
  | some d =>
    .ok ("Find the cheapest flight options from " ++ jsToString (jsMemberPure d "flight-origin")
      ++ " to " ++ jsToString (jsMemberPure d "flight-destination")
      ++ ", departing on " ++ jsToString (jsMemberPure d "flight-depart-date")
      ++ (if truthy (jsMemberPure d "flight-return-date") then
            " and returning on " ++ jsToString (jsMemberPure d "flight-return-date")
          else "")
      ++ " for " ++ jsToString (jsMemberPure d "flight-travelers")
      ++ " traveler(s) in " ++ jsToString (jsMemberPure d "flight-cabin")
      ++ " class. Summarize the best 2-3 options. IMPORTANT: Make sure all airline names are enclosed in asterisks to make them bold, for example **IndiGo** or **SriLankan Airlines**.")

/-- `part_000` flights payload. -/
def part000_flightsPayload (prompt : String) : Json :=
  Json.obj [
    ("contents", .arr [.obj [("parts", .arr [.obj [("text", .str prompt)]])]]),
    ("tools", .arr [.obj [("google_search", .obj [])]])]

/-- `part_000` packingList prompt: `packData['pack-destination']` is the
first access, so a nullish `body.data` throws there. -/
def part000_packPrompt (pd : Option Json) : Except String String :=
  match pd with
  | none => .error (readUndefMsg "pack-destination")
  | some .null => .error (readNullMsg "pack-destination")
  | some d =>
    .ok ("Generate a detailed packing list for a trip to "
      ++ jsToString (jsMemberPure d "pack-destination")
      ++ " for " ++ jsToString (jsMemberPure d "pack-duration")
      ++ " days, during the " ++ jsToString (jsMemberPure d "pack-season")
      ++ ". Special activities include: " ++ jsToString (jsMemberPure d "pack-activities")
      ++ ". Format the output as a Markdown list.")

/-- `part_000` packingList payload (no tools, no schema). -/
def part000_packPayload (prompt : String) : Json :=
  Json.obj [("contents", .arr [.obj [("parts", .arr [.obj [("text", .str prompt)]])]])]

/-- `part_000` currency prompt (reads `body.amount`/`from`/`to`, which are
plain reads of the rest object and never throw). -/
def part000_currencyPrompt (rest : List (String × Json)) : String :=
  "What is the current exchange rate for " ++ jsToString (lookupStr rest "amount")
    ++ " " ++ jsToString (lookupStr rest "from") ++ " to " ++ jsToString (lookupStr rest "to")
    ++ "? Just give the final converted number and the currency code."

/-- `part_000` currency payload. -/
def part000_currencyPayload (rest : List (String × Json)) : Json :=
  Json.obj [
    ("contents", .arr [.obj [("parts", .arr [.obj [("text", .str (part000_currencyPrompt rest))]])]]),
    ("tools", .arr [.obj [("google_search", .obj [])]])]

/-- `part_000` generateImage prompt wrapping `body.prompt`. -/
def part000_imagePrompt (rest : List (String × Json)) : String :=
  "A beautiful, high-quality, professional photograph of: "
    ++ jsToString (lookupStr rest "prompt") ++ ". Realistic, 16:9 aspect ratio."

/-- `part_000` generateImage payload. -/
def part000_imagePayload (rest : List (String × Json)) : Json :=
  Json.obj [
    ("instances", .arr [.obj [("prompt", .str (part000_imagePrompt rest))]]),
    ("parameters", .obj [("sampleCount", .num 1)])]

/-- The default-case response of both switches. -/
def invalidTypeResp : Response :=
  ⟨400, errObj "Invalid API request type"⟩

/-- The `switch (type)` of `part_000` (lines 23-192): selects endpoint and
payload, 400s on an unrecognized `type`, crashes on a nullish `data` where
the template dereferences it. -/
def part000_build (key : String) (ty : Option Json) (rest : List (String × Json)) :
    BuildStep :=
  match typeName ty with
  | none => .early invalidTypeResp
  | some s =>
    if s = "itinerary" then
      match part000_itineraryPrompt (lookupStr rest "data") with
      | .error e => .crash e
      | .ok p => .call (geminiUrl key) (part000_itineraryPayload p)
    else if s = "groundedSearch" then
      .call (geminiUrl key) (part000_groundedSearchPayload rest)
    else if s = "contextualQa" then
      .call (geminiUrl key) (part000_qaPayload rest)
    else if s = "flights" then
      match part000_flightPrompt (lookupStr rest "data") with
      | .error e => .crash e
      | .ok p => .call (geminiUrl key) (part000_flightsPayload p)
    else if s = "packingList" then
      match part000_packPrompt (lookupStr rest "data") with
      | .error e => .crash e
      | .ok p => .call (geminiUrl key) (part000_packPayload p)
    else if s = "currency" then
      .call (geminiUrl key) (part000_currencyPayload rest)
    else if s = "generateImage" then
      .call (imagenUrl key) (part000_imagePayload rest)
    else .early invalidTypeResp

/-- The superseded variant's endpoint: `API_URL_BASE + "?key=" + key`
(`src/api/proxy.js` lines 19-21), computed once before the switch. -/
def proxy_apiUrl (key : String) : String :=
  "https://generativelanguage.googleapis.com/v1beta/models/gemini-2.5-flash-preview-09-2025:generateContent"
    ++ ("?key=" ++ key)

/-- `proxy.js` itinerary prompt (lines 31-62): same user-request block as
`part_000`, a single unnumbered IMPORTANT INSTRUCTION, and no
`foodSuggestion` clauses. -/
def proxy_itineraryPrompt (data : Option Json) : Except String String :=
  match data with
  | none => .error (readUndefMsg "cities")
  | some .null => .error (readNullMsg "cities")
  | some d =>
    .ok ("\nYou are an AI travel assistant. Your task is to generate a travel itinerary based on the user\x27s request.\nYou MUST format your response *strictly* according to the provided JSON schema.\nDo not add any text, conversational chat, or markdown outside of the final JSON structure.\n\nUser Request:\n- Destination: "
      ++ jsToString (jsMemberPure d "cities") ++ ", " ++ jsToString (jsMemberPure d "country")
      ++ "\n- Staying At (Starting Point): "
      ++ (if truthy (jsMemberPure d "staying-at") then jsToString (jsMemberPure d "staying-at")
          else "Central location")
      ++ " \n- Duration: " ++ jsToString (jsMemberPure d "duration")
      ++ " days\n- Travelers: " ++ jsToString (jsMemberPure d "num-people")
      ++ "\n- Budget: " ++ jsToString (jsMemberPure d "budget")
      ++ "\n- Pace: " ++ jsToString (jsMemberPure d "trip-pace")
      ++ "\n- Accommodation: " ++ jsToString (jsMemberPure d "accommodation-type")
      ++ "\n- Interests: "
      ++ (if truthy (jsMemberPure d "interests") then jsToString (jsMemberPure d "interests")
          else "N/A")
      ++ "\n\nIMPORTANT INSTRUCTION:\nIf \"Staying At\" is specific (not \x27Central location\x27), you MUST assume the user starts their day there. \nOptimise the daily order of activities to minimize travel time from that starting point.\n\nJSON Schema Instructions:\n1.  **title**: Generate a concise, catchy title for the trip (e.g., \"3-Day Foodie Tour of Rome\").\n2.  **summary**: Write a 2-3 sentence summary of the trip.\n3.  **budgetTier**: Use the user\x27s requested budget (e.g., \""
      ++ jsToString (jsMemberPure d "budget")
      ++ "\").\n4.  **numberOfPeople**: Use the user\x27s requested number (e.g., "
      ++ jsToString (jsMemberPure d "num-people")
      ++ ").\n5.  **costPerHeadUSD**: Estimate a reasonable cost per person in USD (number only).\n6.  **bestSeasonToVisit**: Suggest the best season to visit (e.g., \"Spring (April-June)\").\n7.  **days**: Create an array for each day.\n8.  **day object**: Each day *must* have a \"day\" number, \"theme\", \"city\", \"transportation_tip\", and an \"activities\" array.\n9.  **activity object**: Each activity *must* have a \"name\", \"type\",\"details\", \"address\", \"approxCostUSD\", and \"crowdLevel\" (Low, Moderate, or High).\n\nIMPORTANT: Your entire response must be ONLY the JSON object, starting with \x7b and ending with \x7d.\n")

/-- `proxy.js` `responseSchema` literal (no `foodSuggestion`). -/
def proxy_itinerarySchema : Json :=
  Json.obj [
    ("type", .str "OBJECT"),
    ("properties", .obj [
      ("title", .obj [("type", .str "STRING")]),
      ("numberOfPeople", .obj [("type", .str "NUMBER")]),
      ("budgetTier", .obj [("type", .str "STRING")]),
      ("costPerHeadUSD", .obj [("type", .str "NUMBER")]),
      ("summary", .obj [("type", .str "STRING")]),
      ("bestSeasonToVisit", .obj [("type", .str "STRING")]),
      ("days", .obj [
        ("type", .str "ARRAY"),
        ("items", .obj [
          ("type", .str "OBJECT"),
          ("properties", .obj [
            ("day", .obj [("type", .str "NUMBER")]),
            ("theme", .obj [("type", .str "STRING")]),
            ("city", .obj [("type", .str "STRING")]),
            ("transportation_tip", .obj [("type", .str "STRING")]),
            ("activities", .obj [
              ("type", .str "ARRAY"),
              ("items", .obj [
                ("type", .str "OBJECT"),
                ("properties", .obj [
                  ("name", .obj [("type", .str "STRING")]),
                  ("type", .obj [("type", .str "STRING")]),
                  ("crowdLevel", .obj [("type", .str "STRING")]),
                  ("approxCostUSD", .obj [("type", .str "NUMBER")]),
                  ("details", .obj [("type", .str "STRING")]),
                  ("address", .obj [("type", .str "STRING")])]),
                ("required", .arr [.str "name", .str "type", .str "details",
                  .str "approxCostUSD", .str "crowdLevel", .str "address"])])])]),
          ("required", .arr [.str "day", .str "theme", .str "city", .str "activities",
            .str "transportation_tip"])])])]),
    ("required", .arr [.str "title", .str "numberOfPeople", .str "budgetTier",
      .str "costPerHeadUSD", .str "summary", .str "bestSeasonToVisit", .str "days"])]

/-- `proxy.js` itinerary payload. -/
def proxy_itineraryPayload (prompt : String) : Json :=
  Json.obj [
    ("contents", .arr [.obj [("parts", .arr [.obj [("text", .str prompt)]])]]),
    ("generationConfig", .obj [
      ("temperature", .num 0.1),
      ("responseMimeType", .str "application/json"),
      ("responseSchema", proxy_itinerarySchema)])]

/-- `proxy.js` groundedSearch payload (lines 124-129). -/
def proxy_groundedSearchPayload (rest : List (String × Json)) : Json :=
  Json.obj [
    ("contents", .arr [.obj [("parts", .arr [objDrop [("text", lookupStr rest "query")]])]]),
    ("tools", .arr [.obj [("google_search", .obj [])]])]

/-- `proxy.js` contextualQa prompt (line 133). -/
def proxy_qaPrompt (rest : List (String × Json)) : String :=
  "Regarding the travel activity or location \"" ++ jsToString (lookupStr rest "context")
    ++ "\", please provide a concise and helpful answer to the following user question: \""
    ++ jsToString (lookupStr rest "question") ++ "\""

/-- `proxy.js` contextualQa payload. -/
def proxy_qaPayload (rest : List (String × Json)) : Json :=
  Json.obj [
    ("contents", .arr [.obj [("parts", .arr [.obj [("text", .str (proxy_qaPrompt rest))]])]]),
    ("tools", .arr [.obj [("google_search", .obj [])]])]

/-- `proxy.js` flights prompt (line 142). -/
def proxy_flightPrompt (fd : Option Json) : Except String String :=
  match fd with
  | none => .error (readUndefMsg "flight-origin")
  | some .null => .error (readNullMsg "flight-origin")
  | some d =>
    .ok ("Find the cheapest flight options from " ++ jsToString (jsMemberPure d "flight-origin")
      ++ " to " ++ jsToString (jsMemberPure d "flight-destination")
      ++ ", departing on " ++ jsToString (jsMemberPure d "flight-depart-date")
      ++ (if truthy (jsMemberPure d "flight-return-date") then
            " and returning on " ++ jsToString (jsMemberPure d "flight-return-date")
          else "")
      ++ " for " ++ jsToString (jsMemberPure d "flight-travelers")
      ++ " traveler(s) in " ++ jsToString (jsMemberPure d "flight-cabin")
      ++ " class. Summarize the best 2-3 options. IMPORTANT: Make sure all airline names are enclosed in asterisks to make them bold, for example **IndiGo** or **SriLankan Airlines**.")

/-- `proxy.js` flights payload. -/
def proxy_flightsPayload (prompt : String) : Json :=
  Json.obj [
    ("contents", .arr [.obj [("parts", .arr [.obj [("text", .str prompt)]])]]),
    ("tools", .arr [.obj [("google_search", .obj [])]])]

/-- `proxy.js` packingList prompt (line 151). -/
def proxy_packPrompt (pd : Option Json) : Except String String :=
  match pd with
  | none => .error (readUndefMsg "pack-destination")
  | some .null => .error (readNullMsg "pack-destination")
  | some d =>
    .ok ("Generate a detailed packing list for a trip to "
      ++ jsToString (jsMemberPure d "pack-destination")
      ++ " for " ++ jsToString (jsMemberPure d "pack-duration")
      ++ " days, during the " ++ jsToString (jsMemberPure d "pack-season")
      ++ ". Special activities include: " ++ jsToString (jsMemberPure d "pack-activities")
      ++ ". Format the output as a Markdown list.")

/-- `proxy.js` packingList payload. -/
def proxy_packPayload (prompt : String) : Json :=
  Json.obj [("contents", .arr [.obj [("parts", .arr [.obj [("text", .str prompt)]])]])]

/-- `proxy.js` currency prompt (line 157). -/
def proxy_currencyPrompt (rest : List (String × Json)) : String :=
  "What is the current exchange rate for " ++ jsToString (lookupStr rest "amount")
    ++ " " ++ jsToString (lookupStr rest "from") ++ " to " ++ jsToString (lookupStr rest "to")
    ++ "? Just give the final converted number and the currency code."

/-- `proxy.js` currency payload. -/
def proxy_currencyPayload (rest : List (String × Json)) : Json :=
  Json.obj [
    ("contents", .arr [.obj [("parts", .arr [.obj [("text", .str (proxy_currencyPrompt rest))]])]]),
    ("tools", .arr [.obj [("google_search", .obj [])]])]

/-- The `switch (type)` of `proxy.js` (lines 27-167): six kinds, no
`generateImage`; every case targets the single precomputed `apiUrl`. -/
def proxy_build (key : String) (ty : Option Json) (rest : List (String × Json)) :
    BuildStep :=
  match typeName ty with
  | none => .early invalidTypeResp
  | some s =>
    if s = "itinerary" then
      match proxy_itineraryPrompt (lookupStr rest "data") with
      | .error e => .crash e
      | .ok p => .call (proxy_apiUrl key) (proxy_itineraryPayload p)
    else if s = "groundedSearch" then
      .call (proxy_apiUrl key) (proxy_groundedSearchPayload rest)
    else if s = "contextualQa" then
      .call (proxy_apiUrl key) (proxy_qaPayload rest)
    else if s = "flights" then
      match proxy_flightPrompt (lookupStr rest "data") with
      | .error e => .crash e
      | .ok p => .call (proxy_apiUrl key) (proxy_flightsPayload p)
    else if s = "packingList" then
      match proxy_packPrompt (lookupStr rest "data") with
      | .error e => .crash e
      | .ok p => .call (proxy_apiUrl key) (proxy_packPayload p)
    else if s = "currency" then
      .call (proxy_apiUrl key) (proxy_currencyPayload rest)
    else .early invalidTypeResp

/-- The value of `errorData.error?.message` on a non-nullish `errorData`:
a nullish `error` short-circuits to `undefined`, otherwise `message` is
read off it. -/
def errMsgOf (errorData : Json) : Option Json :=
  match jsMemberPure errorData "error" with
  | none => none
  | some .null => none
  | some e => jsMemberPure e "message"

/-- The message thrown on a non-ok upstream status once the error body has
parsed: `errorData.error?.message || generic` fed to `new Error`, whose
`.message` the outer catch surfaces.  A `null` error body makes the plain
access `errorData.error` itself throw a TypeError; a non-nullish non-object
body reads `undefined` and falls to the generic message.  (Both source
files share this line verbatim except for the generic text, which is
passed in.) -/
def upstreamErrMsg (generic : String) (errorData : Json) : String :=
  if nullish (some errorData) then readNullMsg "error"
  else if truthy (errMsgOf errorData) then jsToString (errMsgOf errorData) else generic

/-- The itinerary extraction `result.candidates[0].content.parts[0].text`
inside the inner `try` (plain accesses: each throws on a nullish base). -/
def extractItinText (result : Json) : Except String (Option Json) :=
  match jsMember (some result) "candidates" with
  | .error e => .error e
  | .ok a =>
    match jsIndex a 0 with
    | .error e => .error e
    | .ok b =>
      match jsMember b "content" with
      | .error e => .error e
      | .ok c =>
        match jsMember c "parts" with
        | .error e => .error e
        | .ok d =>
          match jsIndex d 0 with
          | .error e => .error e
          | .ok el => jsMember el "text"

/-- The diagnostic re-access in the inner catch,
`result.candidates[0]?.content?.parts[0]?.text`: the first two accesses
and the index after `?.parts` are NOT optional-chained, so this expression
itself throws when `result` or `result.candidates` is nullish, or when
`candidates[0].content` is non-nullish with nullish `parts`; once a `?.`
meets a nullish base the remaining chain short-circuits to `undefined`. -/
def logItinText (result : Json) : Except String (Option Json) :=
  match jsMember (some result) "candidates" with
  | .error e => .error e
  | .ok a =>
    match jsIndex a 0 with
    | .error e => .error e
    | .ok b =>
      if nullish b then .ok none
      else
        let c := jsMemberOpt b "content"
        if nullish c then .ok none
        else
          match jsIndex (jsMemberOpt c "parts") 0 with
          | .error e => .error e
          | .ok el =>
            if nullish el then .ok none
            else .ok (jsMemberOpt el "text")

/-- The client-facing body of `MalformedItineraryError`. -/
def itinFixedMsg : String :=
  "The AI failed to generate a valid itinerary format. Please try again."

/-- The itinerary branch of the normalizer (identical lines in both
variants: `part_000` 219-229, `proxy.js` 183-192): extract, `JSON.parse`
(which first coerces its argument to a string), 200 on success; on any
throw or parse failure the inner catch logs — and if the diagnostic
re-access itself throws, that TypeError falls through to the outer catch,
else the fixed 500 body is sent. -/
def itinBranch (env : Env) (result : Json) : Response :=
  match extractItinText result with
  | .ok f =>
    match env.jsonParse (jsToString f) with
    | .ok parsed => ⟨200, parsed⟩
    | .error _ =>
      match logItinText result with
      | .ok _ => ⟨500, errObj itinFixedMsg⟩
      | .error m => ⟨500, errObj m⟩
  | .error _ =>
    match logItinText result with
    | .ok _ => ⟨500, errObj itinFixedMsg⟩
    | .error m => ⟨500, errObj m⟩

/-- The generateImage branch of `part_000` (lines 210-217):
`result.predictions && result.predictions.length > 0` guards the 200 path
(the plain access throws on a nullish `result`); the 200 body is the
serialized `{ base64Image: result.predictions[0].bytesBase64Encoded }`;
otherwise `Error("No image was generated.")` reaches the outer catch. -/
def part000_imgBranch (result : Json) : Response :=
  match jsMember (some result) "predictions" with
  | .error e => ⟨500, errObj e⟩
  | .ok preds =>
    if truthy preds && jsLenGtZero preds then
      match jsIndex preds 0 with
      | .error e => ⟨500, errObj e⟩
      | .ok p0 =>
        match jsMember p0 "bytesBase64Encoded" with
        | .error e => ⟨500, errObj e⟩
        | .ok b64 => ⟨200, objDrop [("base64Image", b64)]⟩
    else ⟨500, errObj "No image was generated."⟩

/-- `part_000` response normalization (lines 208-234): image branch,
itinerary branch, else passthrough of the upstream JSON. -/
def part000_normalize (env : Env) (ty : Option Json) (result : Json) : Response :=
  match typeName ty with
  | some s =>
    if s = "generateImage" then part000_imgBranch result
    else if s = "itinerary" then itinBranch env result
    else ⟨200, result⟩
  | none => ⟨200, result⟩

/-- `proxy.js` response normalization (lines 183-195): itinerary branch,
else passthrough; no image branch. -/
def proxy_normalize (env : Env) (ty : Option Json) (result : Json) : Response :=
  match typeName ty with
  | some s =>
    if s = "itinerary" then itinBranch env result
    else ⟨200, result⟩
  | none => ⟨200, result⟩

/-- The `try`/`catch` around the fetch in `part_000` (lines 194-239): a
rejected fetch or a `response.json()` rejection surfaces its message via
the outer catch; a non-ok status raises `upstreamErrMsg`; an ok parse goes
to normalization. -/
def part000_afterFetch (env : Env) (ty : Option Json) (f : FetchOutcome) : Response :=
  match f with
  | .transportError m => ⟨500, errObj m⟩
  | .response ok body =>
    match body with
    | .error m => ⟨500, errObj m⟩
    | .ok parsed =>
      if ok then part000_normalize env ty parsed
      else ⟨500, errObj (upstreamErrMsg "Failed to fetch from API" parsed)⟩

/-- The `try`/`catch` of `proxy.js` (lines 169-199); its generic upstream
message differs (`"Failed to fetch from Gemini API"`). -/
def proxy_afterFetch (env : Env) (ty : Option Json) (f : FetchOutcome) : Response :=
  match f with
  | .transportError m => ⟨500, errObj m⟩
  | .response ok body =>
    match body with
    | .error m => ⟨500, errObj m⟩
    | .ok parsed =>
      if ok then proxy_normalize env ty parsed
      else ⟨500, errObj (upstreamErrMsg "Failed to fetch from Gemini API" parsed)⟩

/-- Truthiness of the `API_KEY` string (`!API_KEY` also rejects an empty
configured value). -/
def keyTruthy : Option String → Bool
  | none => false
  | some s => if s = "" then false else true

/-- One full invocation of the `part_000` handler on a request whose body
is the object `reqFields`: method guard, key guard, destructuring
`{ type, ...body }`, the switch, then at most one fetch whose outcome the
environment chooses.  `sent` lists the `res.status().json()` calls in
order; `upstreamCalls` counts outbound fetches. -/
def part000_handlerRun (env : Env) (method : String) (apiKey : Option String)
    (reqFields : List (String × Json)) (fetchOut : FetchOutcome) : RunResult :=
  if method ≠ "POST" then ⟨[⟨405, errObj "Method Not Allowed"⟩], 0⟩
  else if keyTruthy apiKey = false then
    ⟨[⟨500, errObj "API key is not configured on the server."⟩], 0⟩
  else
    let key := apiKey.getD ""
    let ty := lookupStr reqFields "type"
    let rest := reqFields.filter (fun kv => !(kv.1 == "type"))
    match part000_build key ty rest with
    | .early r => ⟨[r], 0⟩
    | .crash _ => ⟨[], 0⟩
    | .call _ _ => ⟨[part000_afterFetch env ty fetchOut], 1⟩

/-- One full invocation of the superseded `proxy.js` handler. -/
def proxy_handlerRun (env : Env) (method : String) (apiKey : Option String)
    (reqFields : List (String × Json)) (fetchOut : FetchOutcome) : RunResult :=
  if method ≠ "POST" then ⟨[⟨405, errObj "Method Not Allowed"⟩], 0⟩
  else if keyTruthy apiKey = false then
    ⟨[⟨500, errObj "API key is not configured on the server."⟩], 0⟩
  else
    let key := apiKey.getD ""
    let ty := lookupStr reqFields "type"
    let rest := reqFields.filter (fun kv => !(kv.1 == "type"))
    match proxy_build key ty rest with
    | .early r => ⟨[r], 0⟩
    | .crash _ => ⟨[], 0⟩
    | .call _ _ => ⟨[proxy_afterFetch env ty fetchOut], 1⟩

/-- The spec's `UpstreamCallSpec`: the full argument of the single `fetch`
both handlers issue — URL, method, headers and serialized payload. -/
structure UpstreamCallSpec where
  endpointURL : String
  method : String
  headers : List (String × String)
  bodyPayload : Json

/-- The `UpstreamCallSpec` a build step determines, when it reaches the
fetch: `POST` with a JSON content type, as the `fetch` options literal
states. -/
def toSpec : BuildStep → Option UpstreamCallSpec
  | .call u p => some ⟨u, "POST", [("Content-Type", "application/json")], p⟩
  | _ => none

/-- A `type` value matching one of the seven cases of the `part_000`
switch (only string values can match `===` against string cases). -/
def recognizedType (ty : Option Json) : Bool :=
  match typeName ty with
  | some s => s == "itinerary" || s == "groundedSearch" || s == "contextualQa"
      || s == "flights" || s == "packingList" || s == "currency" || s == "generateImage"
  | none => false

/-- Appending strings is associative (by passage to the character lists). -/
theorem strAppendAssoc (a b c : String) : a ++ b ++ c = a ++ (b ++ c) := by
  apply congrArg String.mk
  exact List.append_assoc _ _ _

/-- Both switches send the 400 default response on any `type` value
outside the seven recognized kinds. -/
theorem build_unrecognized (key : String) (ty : Option Json) (rest : List (String × Json))
    (h : recognizedType ty = false) :
    part000_build key ty rest = .early invalidTypeResp ∧
    proxy_build key ty rest = .early invalidTypeResp := by
  cases hty : typeName ty with
  | none => simp [part000_build, proxy_build, hty]
  | some s =>
    rw [recognizedType, hty] at h
    simp only [Bool.or_eq_false_iff, beq_eq_false_iff_ne] at h
    obtain ⟨⟨⟨⟨⟨⟨h1, h2⟩, h3⟩, h4⟩, h5⟩, h6⟩, h7⟩ := h
    simp [part000_build, proxy_build, hty, h1, h2, h3, h4, h5, h6, h7]

/-- A fixed sample environment for witnesses: a `JSON.parse` that rejects
every input (its behaviour is irrelevant wherever it is used). -/
def envD : Env := ⟨fun _ => .error "SyntaxError: Unexpected token"⟩

/-- A sample `JSON.parse` recognizing exactly one well-formed document,
for witnesses that need a successful parse. -/
def envP : Env :=
  ⟨fun s => if s = "\x7b\"title\":\"X\",\"days\":[]\x7d" then
      .ok (Json.obj [("title", .str "X"), ("days", .arr [])])
    else .error "SyntaxError: Unexpected token"⟩

/-- C1: a POST with a configured key whose `type` is not one of the seven
enumerated kinds gets status 400 with body `{error: "Invalid API request
type"}` and causes zero outbound upstream calls, in both dispatcher
variants, whatever the network would have answered. -/
theorem C1_unrecognized_type_rejected (env : Env) (fields : List (String × Json))
    (fo : FetchOutcome) (k : String) (hk : k ≠ "")
    (hrec : recognizedType (lookupStr fields "type") = false) :
    part000_handlerRun env "POST" (some k) fields fo =
      ⟨[⟨400, errObj "Invalid API request type"⟩], 0⟩ ∧
    proxy_handlerRun env "POST" (some k) fields fo =
      ⟨[⟨400, errObj "Invalid API request type"⟩], 0⟩ := by
  have hb := build_unrecognized k (lookupStr fields "type")
    (fields.filter (fun kv => !(kv.1 == "type"))) hrec
  constructor
  · simp [part000_handlerRun, keyTruthy, hk, hb.1, invalidTypeResp]
  · simp [proxy_handlerRun, keyTruthy, hk, hb.2, invalidTypeResp]

/-- Witness for C1 at `type: "bogus"`. -/
theorem C1_unrecognized_type_rejected_witness :
    ("k" : String) ≠ "" ∧
    recognizedType (lookupStr [("type", Json.str "bogus")] "type") = false ∧
    part000_handlerRun envD "POST" (some "k") [("type", Json.str "bogus")]
        (.transportError "x") =
      ⟨[⟨400, errObj "Invalid API request type"⟩], 0⟩ :=
  ⟨by decide, by decide,
    (C1_unrecognized_type_rejected envD [("type", Json.str "bogus")]
      (.transportError "x") "k" (by decide) (by decide)).1⟩

/-- C2: on a POST with no configured API key, both variants respond 500
with `{error: "API key is not configured on the server."}` and issue zero
outbound calls, for every request body (so independently of `type`, and
before any payload construction can run). -/
theorem C2_missing_key_rejected (env : Env) (fields : List (String × Json))
    (fo : FetchOutcome) :
    part000_handlerRun env "POST" none fields fo =
      ⟨[⟨500, errObj "API key is not configured on the server."⟩], 0⟩ ∧
    proxy_handlerRun env "POST" none fields fo =
      ⟨[⟨500, errObj "API key is not configured on the server."⟩], 0⟩ :=
  ⟨rfl, rfl⟩

/-- `pat` occurs as a substring of `s`. -/
def containsSub (s pat : String) : Prop := ∃ a b, s = a ++ (pat ++ b)

/-- An optional field of a serialized object. -/
def optJField (k : String) : Option Json → List (String × Json)
  | none => []
  | some v => [(k, v)]

/-- The payload shape of the text-generation family: a `contents` field,
optionally followed by `generationConfig` and/or `tools`. -/
def textPayloadShape (p : Json) : Prop :=
  ∃ contents gc tools,
    p = Json.obj ([("contents", contents)] ++ optJField "generationConfig" gc
      ++ optJField "tools" tools)

/-- The payload shape of the image-generation call:
`{instances: [{prompt}], parameters: {sampleCount: 1}}`. -/
def imagePayloadShape (p : Json) : Prop :=
  ∃ pr : String, p = Json.obj [
    ("instances", .arr [.obj [("prompt", .str pr)]]),
    ("parameters", .obj [("sampleCount", .num 1)])]

/-- The text endpoint URL contains `generateContent`. -/
theorem gemini_contains (key : String) : containsSub (geminiUrl key) "generateContent" :=
  ⟨"https://generativelanguage.googleapis.com/v1beta/models/gemini-2.5-flash-preview-09-2025:",
    "?key=" ++ key, rfl⟩

/-- The image endpoint URL contains `predict`. -/
theorem imagen_contains (key : String) : containsSub (imagenUrl key) "predict" :=
  ⟨"https://generativelanguage.googleapis.com/v1beta/models/imagen-4.0-generate-001:",
    "?key=" ++ key, rfl⟩

/-- Abbreviation for a string-valued `type` field. -/
def jstr (s : String) : Option Json := some (.str s)

/-- C5: whenever the switch resolves an upstream call, the endpoint URL
contains `generateContent` for the six text kinds and `predict` for
`generateImage`, and the payload has the text family's
`{contents, generationConfig?, tools?}` shape for the former and the
`{instances: [{prompt}], parameters: {sampleCount: 1}}` shape for the
latter — for every request body and configured key. -/
theorem C5_endpoints_and_shapes (key : String) (rest : List (String × Json)) :
    (∀ u p, part000_build key (jstr "itinerary") rest = .call u p →
      containsSub u "generateContent" ∧ textPayloadShape p) ∧
    (∀ u p, part000_build key (jstr "groundedSearch") rest = .call u p →
      containsSub u "generateContent" ∧ textPayloadShape p) ∧
    (∀ u p, part000_build key (jstr "contextualQa") rest = .call u p →
      containsSub u "generateContent" ∧ textPayloadShape p) ∧
    (∀ u p, part000_build key (jstr "flights") rest = .call u p →
      containsSub u "generateContent" ∧ textPayloadShape p) ∧
    (∀ u p, part000_build key (jstr "packingList") rest = .call u p →
      containsSub u "generateContent" ∧ textPayloadShape p) ∧
    (∀ u p, part000_build key (jstr "currency") rest = .call u p →
      containsSub u "generateContent" ∧ textPayloadShape p) ∧
    (∀ u p, part000_build key (jstr "generateImage") rest = .call u p →
      containsSub u "predict" ∧ imagePayloadShape p) := by
  refine ⟨?_, ?_, ?_, ?_, ?_, ?_, ?_⟩
  · intro u p h
    cases hd : part000_itineraryPrompt (lookupStr rest "data") with
    | error e => simp [part000_build, typeName, jstr, hd] at h
    | ok pr =>
      simp only [part000_build, typeName, jstr, hd, String.reduceEq, reduceIte,
        BuildStep.call.injEq] at h
      obtain ⟨hu, hp⟩ := h
      subst hu; subst hp
      exact ⟨gemini_contains key,
        ⟨_, some (Json.obj [("temperature", .num 0.1),
          ("responseMimeType", .str "application/json"),
          ("responseSchema", part000_itinerarySchema)]), none, rfl⟩⟩
  · intro u p h
    simp only [part000_build, typeName, jstr, String.reduceEq, reduceIte,
      BuildStep.call.injEq] at h
    obtain ⟨hu, hp⟩ := h
    subst hu; subst hp
    exact ⟨gemini_contains key,
      ⟨_, none, some (Json.arr [.obj [("google_search", .obj [])]]), rfl⟩⟩
  · intro u p h
    simp only [part000_build, typeName, jstr, String.reduceEq, reduceIte,
      BuildStep.call.injEq] at h
    obtain ⟨hu, hp⟩ := h
    subst hu; subst hp
    exact ⟨gemini_contains key,
      ⟨_, none, some (Json.arr [.obj [("google_search", .obj [])]]), rfl⟩⟩
  · intro u p h
    cases hd : part000_flightPrompt (lookupStr rest "data") with
    | error e => simp [part000_build, typeName, jstr, hd] at h
    | ok pr =>
      simp only [part000_build, typeName, jstr, hd, String.reduceEq, reduceIte,
        BuildStep.call.injEq] at h
      obtain ⟨hu, hp⟩ := h
      subst hu; subst hp
      exact ⟨gemini_contains key,
        ⟨_, none, some (Json.arr [.obj [("google_search", .obj [])]]), rfl⟩⟩
  · intro u p h
    cases hd : part000_packPrompt (lookupStr rest "data") with
    | error e => simp [part000_build, typeName, jstr, hd] at h
    | ok pr =>
      simp only [part000_build, typeName, jstr, hd, String.reduceEq, reduceIte,
        BuildStep.call.injEq] at h
      obtain ⟨hu, hp⟩ := h
      subst hu; subst hp
      exact ⟨gemini_contains key, ⟨_, none, none, rfl⟩⟩
  · intro u p h
    simp only [part000_build, typeName, jstr, String.reduceEq, reduceIte,
      BuildStep.call.injEq] at h
    obtain ⟨hu, hp⟩ := h
    subst hu; subst hp
    exact ⟨gemini_contains key,
      ⟨_, none, some (Json.arr [.obj [("google_search", .obj [])]]), rfl⟩⟩
  · intro u p h
    simp only [part000_build, typeName, jstr, String.reduceEq, reduceIte,
      BuildStep.call.injEq] at h
    obtain ⟨hu, hp⟩ := h
    subst hu; subst hp
    exact ⟨imagen_contains key, ⟨_, rfl⟩⟩

/-- Witness for C5: the resolved-call hypotheses are discharged at a
concrete body for a text kind and for the image kind. -/
theorem C5_endpoints_and_shapes_witness :
    (containsSub (geminiUrl "k") "generateContent" ∧
      textPayloadShape (part000_groundedSearchPayload [("query", Json.str "hi")])) ∧
    (containsSub (imagenUrl "k") "predict" ∧
      imagePayloadShape (part000_imagePayload [("prompt", Json.str "Rome")])) :=
  ⟨(C5_endpoints_and_shapes "k" [("query", Json.str "hi")]).2.1
      (geminiUrl "k") (part000_groundedSearchPayload [("query", Json.str "hi")]) rfl,
    (C5_endpoints_and_shapes "k" [("prompt", Json.str "Rome")]).2.2.2.2.2.2
      (imagenUrl "k") (part000_imagePayload [("prompt", Json.str "Rome")]) rfl⟩

/-- C7: payload construction is deterministic — for a fixed key, a
recognized `type` and any body, evaluating the builder twice yields
structurally identical `UpstreamCallSpec`s.  The embedding is a pure
function precisely because the source reads no ambient state here (no
randomness, clock or mutation), so the two evaluations coincide
definitionally. -/
theorem C7_build_deterministic (key : String) (ty : Option Json)
    (rest : List (String × Json)) (h : recognizedType ty = true) :
    toSpec (part000_build key ty rest) = toSpec (part000_build key ty rest) ∧
    toSpec (proxy_build key ty rest) = toSpec (proxy_build key ty rest) :=
  ⟨rfl, rfl⟩

/-- Witness for C7 at the currency kind. -/
theorem C7_build_deterministic_witness :
    recognizedType (jstr "currency") = true ∧
    toSpec (part000_build "k" (jstr "currency") [("amount", Json.num 100)]) =
      toSpec (part000_build "k" (jstr "currency") [("amount", Json.num 100)]) :=
  ⟨by decide,
    (C7_build_deterministic "k" (jstr "currency") [("amount", Json.num 100)] (by decide)).1⟩

/-- The two variants' endpoint strings coincide (one is written as a single
literal, the other as `base + "?key=" + key`). -/
theorem url_eq (key : String) : geminiUrl key = proxy_apiUrl key := by
  rw [proxy_apiUrl, ← strAppendAssoc]
  have h : ("https://generativelanguage.googleapis.com/v1beta/models/gemini-2.5-flash-preview-09-2025:generateContent"
      ++ "?key=" : String) =
      "https://generativelanguage.googleapis.com/v1beta/models/gemini-2.5-flash-preview-09-2025:generateContent?key=" := by
    decide
  rw [h, geminiUrl]

/-- The two transcriptions of the flights prompt line are the same
function. -/
theorem flightPrompt_eq : part000_flightPrompt = proxy_flightPrompt := rfl

/-- The two transcriptions of the packing-list prompt line are the same
function. -/
theorem packPrompt_eq : part000_packPrompt = proxy_packPrompt := rfl

/-- C9: for the five shared kinds other than itinerary, the superseded
variant builds the identical upstream step (same endpoint URL, same
payload, and the same crash behaviour on nullish `data`) as the superset
variant, and both normalize any upstream success result by passing the
JSON through unchanged with status 200. -/
theorem C9_variants_agree (key : String) (rest : List (String × Json)) (env : Env)
    (result : Json) :
    (part000_build key (jstr "groundedSearch") rest = proxy_build key (jstr "groundedSearch") rest ∧
     part000_build key (jstr "contextualQa") rest = proxy_build key (jstr "contextualQa") rest ∧
     part000_build key (jstr "flights") rest = proxy_build key (jstr "flights") rest ∧
     part000_build key (jstr "packingList") rest = proxy_build key (jstr "packingList") rest ∧
     part000_build key (jstr "currency") rest = proxy_build key (jstr "currency") rest) ∧
    (part000_normalize env (jstr "groundedSearch") result = ⟨200, result⟩ ∧
     part000_normalize env (jstr "contextualQa") result = ⟨200, result⟩ ∧
     part000_normalize env (jstr "flights") result = ⟨200, result⟩ ∧
     part000_normalize env (jstr "packingList") result = ⟨200, result⟩ ∧
     part000_normalize env (jstr "currency") result = ⟨200, result⟩) ∧
    (proxy_normalize env (jstr "groundedSearch") result = ⟨200, result⟩ ∧
     proxy_normalize env (jstr "contextualQa") result = ⟨200, result⟩ ∧
     proxy_normalize env (jstr "flights") result = ⟨200, result⟩ ∧
     proxy_normalize env (jstr "packingList") result = ⟨200, result⟩ ∧
     proxy_normalize env (jstr "currency") result = ⟨200, result⟩) := by
  refine ⟨⟨?_, ?_, ?_, ?_, ?_⟩, ⟨rfl, rfl, rfl, rfl, rfl⟩, ⟨rfl, rfl, rfl, rfl, rfl⟩⟩
  · simp only [part000_build, proxy_build, typeName, jstr, String.reduceEq, reduceIte]
    rw [url_eq]; rfl
  · simp only [part000_build, proxy_build, typeName, jstr, String.reduceEq, reduceIte]
    rw [url_eq]; rfl
  · simp only [part000_build, proxy_build, typeName, jstr, String.reduceEq, reduceIte]
    rw [flightPrompt_eq]
    cases proxy_flightPrompt (lookupStr rest "data") with
    | error e => rfl
    | ok p => rw [url_eq]; rfl
  · simp only [part000_build, proxy_build, typeName, jstr, String.reduceEq, reduceIte]
    rw [packPrompt_eq]
    cases proxy_packPrompt (lookupStr rest "data") with
    | error e => rfl
    | ok p => rw [url_eq]; rfl
  · simp only [part000_build, proxy_build, typeName, jstr, String.reduceEq, reduceIte]
    rw [url_eq]; rfl

/-- A successful JS property access means the base was non-nullish and the
value is the pure read. -/
theorem jsMember_ok_elim (v : Option Json) (k : String) (c : Option Json)
    (h : jsMember v k = .ok c) : nullish v = false ∧ jsMemberOpt v k = c := by
  cases v with
  | none => simp [jsMember] at h
  | some j => cases j <;> simp_all [jsMember, jsMemberOpt, nullish]

/-- Property access on a non-null document value succeeds with the pure
read. -/
theorem jsMember_some_ok (j : Json) (h : j ≠ .null) (k : String) :
    jsMember (some j) k = .ok (jsMemberPure j k) := by
  cases j <;> simp_all [jsMember]

/-- A non-null value is not nullish. -/
theorem nullish_some_false (j : Json) (h : j ≠ .null) : nullish (some j) = false := by
  cases j <;> simp_all [nullish]

/-- When the inner-try extraction succeeds, the diagnostic re-access of the
inner catch succeeds too (and yields the same text), because every base it
dereferences without a guard was already dereferenced by the extraction. -/
theorem extract_ok_log (result : Json) (f : Option Json)
    (h : extractItinText result = .ok f) : logItinText result = .ok f := by
  cases ha : jsMember (some result) "candidates" with
  | error e => simp [extractItinText, ha] at h
  | ok a =>
    cases hb : jsIndex a 0 with
    | error e => simp [extractItinText, ha, hb] at h
    | ok b =>
      cases hc : jsMember b "content" with
      | error e => simp [extractItinText, ha, hb, hc] at h
      | ok c =>
        obtain ⟨hbn, hbc⟩ := jsMember_ok_elim b "content" c hc
        cases hd : jsMember c "parts" with
        | error e => simp [extractItinText, ha, hb, hc, hd] at h
        | ok d =>
          obtain ⟨hcn, hcd⟩ := jsMember_ok_elim c "parts" d hd
          cases he : jsIndex d 0 with
          | error e => simp [extractItinText, ha, hb, hc, hd, he] at h
          | ok el =>
            cases hf : jsMember el "text" with
            | error e => simp [extractItinText, ha, hb, hc, hd, he, hf] at h
            | ok tv =>
              obtain ⟨hen, het⟩ := jsMember_ok_elim el "text" tv hf
              simp only [extractItinText, ha, hb, hc, hd, he, hf, Except.ok.injEq] at h
              simp only [logItinText, ha, hb, hbn, Bool.false_eq_true, if_false, hbc,
                hcn, hcd, he, hen, het, h]

/-- A non-nullish `body.data` makes the itinerary template interpolate
without throwing. -/
theorem itinPrompt_ok (data : Option Json) (h : nullish data = false) :
    ∃ p, part000_itineraryPrompt data = .ok p := by
  cases data with
  | none => simp [nullish] at h
  | some j => cases j <;> simp_all [nullish, part000_itineraryPrompt]

/-- On an itinerary POST with a configured key and non-nullish data, the
handler sends exactly the itinerary-normalization response of the parsed
upstream body, after one upstream call. -/
theorem itin_run (env : Env) (k : String) (fields : List (String × Json)) (result : Json)
    (hk : k ≠ "") (hty : lookupStr fields "type" = jstr "itinerary")
    (hdata : nullish (lookupStr (fields.filter (fun kv => !(kv.1 == "type"))) "data") = false) :
    part000_handlerRun env "POST" (some k) fields (.response true (.ok result)) =
      ⟨[itinBranch env result], 1⟩ := by
  obtain ⟨p, hp⟩ := itinPrompt_ok _ hdata
  simp [part000_handlerRun, keyTruthy, hk, part000_build, hty, jstr, typeName, hp,
    part000_afterFetch, part000_normalize]

/-- C3 (amended): on an itinerary request with a successful upstream
response, the handler 200-returns the parse of the extracted text as-is;
if the extracted text fails to parse it sends the fixed 500
MalformedItineraryError body; and if the extraction itself throws (path
absent) it sends the fixed 500 body when the diagnostic re-access
`candidates[0]?.content?.parts[0]?.text` does not throw, and a 500 with
that TypeError's message when it does — in every case exactly one
response, no unhandled exception and no partial result. -/
theorem C3_itinerary_normalization (env : Env) (k : String)
    (fields : List (String × Json)) (result : Json)
    (hk : k ≠ "") (hty : lookupStr fields "type" = jstr "itinerary")
    (hdata : nullish (lookupStr (fields.filter (fun kv => !(kv.1 == "type"))) "data") = false) :
    (∀ f v, extractItinText result = .ok f → env.jsonParse (jsToString f) = .ok v →
      part000_handlerRun env "POST" (some k) fields (.response true (.ok result)) =
        ⟨[⟨200, v⟩], 1⟩) ∧
    (∀ f e, extractItinText result = .ok f → env.jsonParse (jsToString f) = .error e →
      part000_handlerRun env "POST" (some k) fields (.response true (.ok result)) =
        ⟨[⟨500, errObj itinFixedMsg⟩], 1⟩) ∧
    (∀ e, extractItinText result = .error e →
      part000_handlerRun env "POST" (some k) fields (.response true (.ok result)) =
        ⟨[⟨500, errObj (match logItinText result with
            | .ok _ => itinFixedMsg
            | .error m => m)⟩], 1⟩) := by
  refine ⟨?_, ?_, ?_⟩
  · intro f v hf hv
    rw [itin_run env k fields result hk hty hdata]
    simp [itinBranch, hf, hv]
  · intro f e hf he
    rw [itin_run env k fields result hk hty hdata]
    simp [itinBranch, hf, he, extract_ok_log result f hf]
  · intro e he
    rw [itin_run env k fields result hk hty hdata]
    cases hl : logItinText result with
    | error m => simp [itinBranch, he, hl]
    | ok g => simp [itinBranch, he, hl]

/-- Counterexample to C3 as stated: an upstream success body `{}` has the
whole candidates path absent, yet the response body is the TypeError
message of the diagnostic re-access (which falls to the outer catch), not
the MalformedItineraryError body the claim requires for absent paths. -/
theorem C3_itinerary_normalization_cex :
    part000_handlerRun envD "POST" (some "k")
        [("type", Json.str "itinerary"), ("data", Json.obj [])]
        (.response true (.ok (Json.obj []))) =
      ⟨[⟨500, errObj "Cannot read properties of undefined (reading \x270\x27)"⟩], 1⟩ ∧
    errObj "Cannot read properties of undefined (reading \x270\x27)" ≠ errObj itinFixedMsg := by
  constructor
  · rfl
  · simp [errObj, itinFixedMsg]

/-- Witness for C3 at concrete inputs: a parse success returning the
object as-is, a parse failure on text `"not json"` producing the fixed
message, and an empty candidates array (extraction throws but the
re-access does not) producing the fixed message. -/
theorem C3_itinerary_normalization_witness :
    part000_handlerRun envP "POST" (some "k")
        [("type", Json.str "itinerary"), ("data", Json.obj [])]
        (.response true (.ok (Json.obj [("candidates", .arr [.obj [("content",
          .obj [("parts", .arr [.obj [("text",
            .str "\x7b\"title\":\"X\",\"days\":[]\x7d")]])])]])]))) =
      ⟨[⟨200, Json.obj [("title", .str "X"), ("days", .arr [])]⟩], 1⟩ ∧
    part000_handlerRun envP "POST" (some "k")
        [("type", Json.str "itinerary"), ("data", Json.obj [])]
        (.response true (.ok (Json.obj [("candidates", .arr [.obj [("content",
          .obj [("parts", .arr [.obj [("text", .str "not json")]])])]])]))) =
      ⟨[⟨500, errObj itinFixedMsg⟩], 1⟩ ∧
    part000_handlerRun envP "POST" (some "k")
        [("type", Json.str "itinerary"), ("data", Json.obj [])]
        (.response true (.ok (Json.obj [("candidates", .arr [])]))) =
      ⟨[⟨500, errObj itinFixedMsg⟩], 1⟩ := by
  refine ⟨?_, ?_, ?_⟩
  · exact (C3_itinerary_normalization envP "k"
      [("type", Json.str "itinerary"), ("data", Json.obj [])]
      (Json.obj [("candidates", .arr [.obj [("content",
        .obj [("parts", .arr [.obj [("text",
          .str "\x7b\"title\":\"X\",\"days\":[]\x7d")]])])]])])
      (by decide) rfl (by decide)).1
      (some (.str "\x7b\"title\":\"X\",\"days\":[]\x7d"))
      (Json.obj [("title", .str "X"), ("days", .arr [])]) rfl
      (by simp [envP, jsToString, jsToStringV])
  · exact (C3_itinerary_normalization envP "k"
      [("type", Json.str "itinerary"), ("data", Json.obj [])]
      (Json.obj [("candidates", .arr [.obj [("content",
        .obj [("parts", .arr [.obj [("text", .str "not json")]])])]])])
      (by decide) rfl (by decide)).2.1
      (some (.str "not json")) "SyntaxError: Unexpected token" rfl
      (by simp [envP, jsToString, jsToStringV])
  · exact (C3_itinerary_normalization envP "k"
      [("type", Json.str "itinerary"), ("data", Json.obj [])]
      (Json.obj [("candidates", .arr [])])
      (by decide) rfl (by decide)).2.2
      (readUndefMsg "content") rfl

/-- C8: whenever the itinerary branch extracts an actual text string that
fails to parse, the 500 body it sends is the fixed MalformedItineraryError
constant — in particular it is independent of the model text and of the
parse error, neither of which can leak to the client. -/
theorem C8_no_diagnostic_leak (env : Env) (result : Json) (s e : String)
    (h1 : extractItinText result = .ok (some (.str s)))
    (h2 : env.jsonParse s = .error e) :
    itinBranch env result = ⟨500, errObj itinFixedMsg⟩ := by
  have hl := extract_ok_log result (some (.str s)) h1
  simp [itinBranch, h1, h2, hl, jsToString, jsToStringV]

/-- Witness for C8 at text `"not json"` under a rejecting `JSON.parse`. -/
theorem C8_no_diagnostic_leak_witness :
    itinBranch envD (Json.obj [("candidates", .arr [.obj [("content",
        .obj [("parts", .arr [.obj [("text", .str "not json")]])])]])]) =
      ⟨500, errObj itinFixedMsg⟩ :=
  C8_no_diagnostic_leak envD _ "not json" "SyntaxError: Unexpected token" rfl rfl

/-- On a generateImage POST with a configured key, the handler sends
exactly the image-normalization response of the parsed upstream body. -/
theorem img_run (env : Env) (k : String) (fields : List (String × Json)) (result : Json)
    (hk : k ≠ "") (hty : lookupStr fields "type" = jstr "generateImage") :
    part000_handlerRun env "POST" (some k) fields (.response true (.ok result)) =
      ⟨[part000_imgBranch result], 1⟩ := by
  simp [part000_handlerRun, keyTruthy, hk, part000_build, hty, jstr, typeName,
    part000_afterFetch, part000_normalize]

/-- C4 (amended): on a generateImage request whose successful upstream
body is non-null, a predictions sequence with a non-null first element
yields status 200 with exactly the serialized
`{base64Image: predictions[0].bytesBase64Encoded}`; absent or empty
predictions yield the GenerationFailed response
(500, "No image was generated."). -/
theorem C4_image_normalization (env : Env) (k : String)
    (fields : List (String × Json)) (result : Json)
    (hk : k ≠ "") (hty : lookupStr fields "type" = jstr "generateImage")
    (hnn : result ≠ .null) :
    (∀ x xs, jsMemberPure result "predictions" = some (.arr (x :: xs)) → x ≠ .null →
      part000_handlerRun env "POST" (some k) fields (.response true (.ok result)) =
        ⟨[⟨200, objDrop [("base64Image", jsMemberPure x "bytesBase64Encoded")]⟩], 1⟩) ∧
    (jsMemberPure result "predictions" = none →
      part000_handlerRun env "POST" (some k) fields (.response true (.ok result)) =
        ⟨[⟨500, errObj "No image was generated."⟩], 1⟩) ∧
    (jsMemberPure result "predictions" = some (.arr []) →
      part000_handlerRun env "POST" (some k) fields (.response true (.ok result)) =
        ⟨[⟨500, errObj "No image was generated."⟩], 1⟩) := by
  refine ⟨?_, ?_, ?_⟩
  · intro x xs hp hx
    rw [img_run env k fields result hk hty]
    simp [part000_imgBranch, jsMember_some_ok result hnn, hp, truthy, jsLenGtZero,
      jsIndex, jsIndexPure, jsMember_some_ok x hx]
  · intro hp
    rw [img_run env k fields result hk hty]
    simp [part000_imgBranch, jsMember_some_ok result hnn, hp, truthy]
  · intro hp
    rw [img_run env k fields result hk hty]
    simp [part000_imgBranch, jsMember_some_ok result hnn, hp, truthy, jsLenGtZero]

/-- Counterexample to C4 as stated: `{predictions: [null]}` is a non-empty
predictions sequence, yet the handler responds 500 (the TypeError of
reading `bytesBase64Encoded` on `null`, via the outer catch), not the
200 with a `base64Image` body the claim requires. -/
theorem C4_image_normalization_cex :
    part000_handlerRun envD "POST" (some "k") [("type", Json.str "generateImage")]
        (.response true (.ok (Json.obj [("predictions", .arr [.null])]))) =
      ⟨[⟨500, errObj "Cannot read properties of null (reading \x27bytesBase64Encoded\x27)"⟩], 1⟩ ∧
    ¬ ∃ b, (part000_handlerRun envD "POST" (some "k") [("type", Json.str "generateImage")]
        (.response true (.ok (Json.obj [("predictions", .arr [.null])])))).sent =
      [⟨200, b⟩] := by
  have h1 : part000_handlerRun envD "POST" (some "k") [("type", Json.str "generateImage")]
      (.response true (.ok (Json.obj [("predictions", .arr [.null])]))) =
      ⟨[⟨500, errObj "Cannot read properties of null (reading \x27bytesBase64Encoded\x27)"⟩], 1⟩ := rfl
  refine ⟨h1, ?_⟩
  rintro ⟨b, hb⟩
  rw [h1] at hb
  simp [errObj] at hb

/-- Witness for C4 at a one-prediction body, a body with no predictions,
and a body with empty predictions. -/
theorem C4_image_normalization_witness :
    part000_handlerRun envD "POST" (some "k") [("type", Json.str "generateImage")]
        (.response true (.ok (Json.obj [("predictions",
          .arr [.obj [("bytesBase64Encoded", .str "QUJD")]])]))) =
      ⟨[⟨200, Json.obj [("base64Image", Json.str "QUJD")]⟩], 1⟩ ∧
    part000_handlerRun envD "POST" (some "k") [("type", Json.str "generateImage")]
        (.response true (.ok (Json.obj []))) =
      ⟨[⟨500, errObj "No image was generated."⟩], 1⟩ ∧
    part000_handlerRun envD "POST" (some "k") [("type", Json.str "generateImage")]
        (.response true (.ok (Json.obj [("predictions", .arr [])]))) =
      ⟨[⟨500, errObj "No image was generated."⟩], 1⟩ := by
  refine ⟨?_, ?_, ?_⟩
  · exact (C4_image_normalization envD "k" [("type", Json.str "generateImage")]
      (Json.obj [("predictions", .arr [.obj [("bytesBase64Encoded", .str "QUJD")]])])
      (by decide) rfl (by simp)).1
      (Json.obj [("bytesBase64Encoded", .str "QUJD")]) [] rfl (by simp)
  · exact (C4_image_normalization envD "k" [("type", Json.str "generateImage")]
      (Json.obj []) (by decide) rfl (by simp)).2.1 rfl
  · exact (C4_image_normalization envD "k" [("type", Json.str "generateImage")]
      (Json.obj [("predictions", .arr [])]) (by decide) rfl (by simp)).2.2 rfl

/-- Whenever the switch resolves a call, the handler sends exactly the
try/catch's response for the network outcome, after one upstream call. -/
theorem run_call (env : Env) (k : String) (fields : List (String × Json))
    (fo : FetchOutcome) (u : String) (p : Json) (hk : k ≠ "")
    (hcall : part000_build k (lookupStr fields "type")
      (fields.filter (fun kv => !(kv.1 == "type"))) = .call u p) :
    part000_handlerRun env "POST" (some k) fields fo =
      ⟨[part000_afterFetch env (lookupStr fields "type") fo], 1⟩ := by
  simp [part000_handlerRun, keyTruthy, hk, hcall]

/-- C6 (amended): on a non-success upstream status, the handler surfaces
500 `{error: message}` where the message is the upstream-supplied truthy
`error.message` string when the parsed error body (non-null) carries one,
the generic "Failed to fetch from API" when the non-null body carries no
truthy message, the `response.json()` rejection message when the error
body is not parseable as JSON — and, when the error body parses to `null`,
the TypeError message of reading `.error` on null rather than the generic
message. -/
theorem C6_upstream_error_mapping (env : Env) (k : String)
    (fields : List (String × Json)) (u : String) (p : Json) (hk : k ≠ "")
    (hcall : part000_build k (lookupStr fields "type")
      (fields.filter (fun kv => !(kv.1 == "type"))) = .call u p) :
    (∀ ed m, ed ≠ .null → errMsgOf ed = some (.str m) → m ≠ "" →
      part000_handlerRun env "POST" (some k) fields (.response false (.ok ed)) =
        ⟨[⟨500, errObj m⟩], 1⟩) ∧
    (∀ ed, ed ≠ .null → truthy (errMsgOf ed) = false →
      part000_handlerRun env "POST" (some k) fields (.response false (.ok ed)) =
        ⟨[⟨500, errObj "Failed to fetch from API"⟩], 1⟩) ∧
    (∀ pm, part000_handlerRun env "POST" (some k) fields (.response false (.error pm)) =
      ⟨[⟨500, errObj pm⟩], 1⟩) ∧
    (part000_handlerRun env "POST" (some k) fields (.response false (.ok .null)) =
      ⟨[⟨500, errObj (readNullMsg "error")⟩], 1⟩) := by
  refine ⟨?_, ?_, ?_, ?_⟩
  · intro ed m hnn hmsg hm
    rw [run_call env k fields _ u p hk hcall]
    simp [part000_afterFetch, upstreamErrMsg, nullish_some_false ed hnn, hmsg, truthy, hm,
      jsToString, jsToStringV]
  · intro ed hnn htr
    rw [run_call env k fields _ u p hk hcall]
    simp [part000_afterFetch, upstreamErrMsg, nullish_some_false ed hnn, htr]
  · intro pm
    rw [run_call env k fields _ u p hk hcall]
    simp [part000_afterFetch]
  · rw [run_call env k fields _ u p hk hcall]
    simp [part000_afterFetch, upstreamErrMsg, nullish]

/-- Counterexample to C6 as stated: a non-success response whose error
body parses to `null` carries no upstream message, yet the 500 body is the
TypeError message from `errorData.error`, not the claimed generic
"Failed to fetch from API". -/
theorem C6_upstream_error_mapping_cex :
    part000_handlerRun envD "POST" (some "k") [("type", Json.str "currency")]
        (.response false (.ok Json.null)) =
      ⟨[⟨500, errObj "Cannot read properties of null (reading \x27error\x27)"⟩], 1⟩ ∧
    errObj "Cannot read properties of null (reading \x27error\x27)" ≠
      errObj "Failed to fetch from API" :=
  ⟨rfl, by simp [errObj]⟩

/-- Witness for C6: an upstream message, a bodiless error object, and an
unparseable error body. -/
theorem C6_upstream_error_mapping_witness :
    part000_handlerRun envD "POST" (some "k") [("type", Json.str "currency")]
        (.response false (.ok (Json.obj [("error", .obj [("message", .str "quota")])]))) =
      ⟨[⟨500, errObj "quota"⟩], 1⟩ ∧
    part000_handlerRun envD "POST" (some "k") [("type", Json.str "currency")]
        (.response false (.ok (Json.obj []))) =
      ⟨[⟨500, errObj "Failed to fetch from API"⟩], 1⟩ ∧
    part000_handlerRun envD "POST" (some "k") [("type", Json.str "currency")]
        (.response false (.error "Unexpected end of JSON input")) =
      ⟨[⟨500, errObj "Unexpected end of JSON input"⟩], 1⟩ := by
  have hc := C6_upstream_error_mapping envD "k" [("type", Json.str "currency")]
    (geminiUrl "k") (part000_currencyPayload []) (by decide) rfl
  refine ⟨?_, ?_, ?_⟩
  · exact hc.1 (Json.obj [("error", .obj [("message", .str "quota")])]) "quota"
      (by simp) rfl (by decide)
  · exact hc.2.1 (Json.obj []) (by simp) rfl
  · exact hc.2.2.1 "Unexpected end of JSON input"

/-- The condition under which a `part_000` invocation reaches neither a
response nor the try block: a POST with a configured key whose type is
itinerary, flights or packingList and whose `body.data` is nullish — the
template then throws before the `try`. -/
def part000_crashPred (method : String) (apiKey : Option String)
    (fields : List (String × Json)) : Bool :=
  method == "POST" && keyTruthy apiKey &&
    (match typeName (lookupStr fields "type") with
     | some s => (s == "itinerary" || s == "flights" || s == "packingList") &&
         nullish (lookupStr (fields.filter (fun kv => !(kv.1 == "type"))) "data")
     | none => false)

/-- A nullish `body.data` makes the itinerary template throw. -/
theorem itinPrompt_error (d : Option Json) (h : nullish d = true) :
    ∃ e, part000_itineraryPrompt d = .error e := by
  cases d with
  | none => exact ⟨_, rfl⟩
  | some j => cases j <;> simp_all [nullish, part000_itineraryPrompt]

/-- A non-nullish `body.data` makes the flights template interpolate. -/
theorem flightPrompt_ok (d : Option Json) (h : nullish d = false) :
    ∃ p, part000_flightPrompt d = .ok p := by
  cases d with
  | none => simp [nullish] at h
  | some j => cases j <;> simp_all [nullish, part000_flightPrompt]

/-- A nullish `body.data` makes the flights template throw. -/
theorem flightPrompt_error (d : Option Json) (h : nullish d = true) :
    ∃ e, part000_flightPrompt d = .error e := by
  cases d with
  | none => exact ⟨_, rfl⟩
  | some j => cases j <;> simp_all [nullish, part000_flightPrompt]

/-- A non-nullish `body.data` makes the packing template interpolate. -/
theorem packPrompt_ok (d : Option Json) (h : nullish d = false) :
    ∃ p, part000_packPrompt d = .ok p := by
  cases d with
  | none => simp [nullish] at h
  | some j => cases j <;> simp_all [nullish, part000_packPrompt]

/-- A nullish `body.data` makes the packing template throw. -/
theorem packPrompt_error (d : Option Json) (h : nullish d = true) :
    ∃ e, part000_packPrompt d = .error e := by
  cases d with
  | none => exact ⟨_, rfl⟩
  | some j => cases j <;> simp_all [nullish, part000_packPrompt]

/-- The number of responses an invocation sends, factored through the
build step: one on every path except a pre-try crash. -/
theorem run_length (env : Env) (method : String) (apiKey : Option String)
    (fields : List (String × Json)) (fo : FetchOutcome) :
    (part000_handlerRun env method apiKey fields fo).sent.length =
      (if method = "POST" then
        if keyTruthy apiKey then
          (match part000_build (apiKey.getD "") (lookupStr fields "type")
              (fields.filter (fun kv => !(kv.1 == "type"))) with
           | .crash _ => 0
           | _ => 1)
        else 1
      else 1) := by
  by_cases hm : method = "POST"
  · subst hm
    cases hkt : keyTruthy apiKey with
    | false => simp [part000_handlerRun, hkt]
    | true =>
      simp only [part000_handlerRun, hkt, ne_eq, not_true_eq_false, if_false,
        Bool.true_eq_false, if_true, reduceIte]
      cases part000_build (apiKey.getD "") (lookupStr fields "type")
          (fields.filter (fun kv => !(kv.1 == "type"))) <;> simp
  · simp [part000_handlerRun, hm]

/-- The build step crashes exactly on the three data-dereferencing kinds
with nullish data. -/
theorem build_crash_count (key : String) (ty : Option Json) (rest : List (String × Json)) :
    (match part000_build key ty rest with
     | .crash _ => (0 : Nat)
     | _ => 1) =
      (if (match typeName ty with
           | some s => (s == "itinerary" || s == "flights" || s == "packingList") &&
               nullish (lookupStr rest "data")
           | none => false) then 0 else 1) := by
  cases hty : typeName ty with
  | none => simp [part000_build, hty]
  | some s =>
    by_cases h1 : s = "itinerary"
    · subst h1
      cases hnd : nullish (lookupStr rest "data") with
      | true =>
        obtain ⟨e, he⟩ := itinPrompt_error _ hnd
        simp [part000_build, hty, he, hnd]
      | false =>
        obtain ⟨p, hp⟩ := itinPrompt_ok _ hnd
        simp [part000_build, hty, hp, hnd]
    · by_cases h2 : s = "groundedSearch"
      · subst h2; simp [part000_build, hty]
      · by_cases h3 : s = "contextualQa"
        · subst h3; simp [part000_build, hty]
        · by_cases h4 : s = "flights"
          · subst h4
            cases hnd : nullish (lookupStr rest "data") with
            | true =>
              obtain ⟨e, he⟩ := flightPrompt_error _ hnd
              simp [part000_build, hty, he, hnd]
            | false =>
              obtain ⟨p, hp⟩ := flightPrompt_ok _ hnd
              simp [part000_build, hty, hp, hnd]
          · by_cases h5 : s = "packingList"
            · subst h5
              cases hnd : nullish (lookupStr rest "data") with
              | true =>
                obtain ⟨e, he⟩ := packPrompt_error _ hnd
                simp [part000_build, hty, he, hnd]
              | false =>
                obtain ⟨p, hp⟩ := packPrompt_ok _ hnd
                simp [part000_build, hty, hp, hnd]
            · by_cases h6 : s = "currency"
              · subst h6; simp [part000_build, hty]
              · by_cases h7 : s = "generateImage"
                · subst h7; simp [part000_build, hty]
                · simp [part000_build, hty, h1, h2, h3, h4, h5, h6, h7, beq_iff_eq]

/-- C10 (amended): for every request whose body is an object, the handler
sends exactly one response on every path — non-POST, missing key,
unrecognized type, upstream success of each kind, upstream failure, parse
failure, and the fall-through of the diagnostic logging — except that a
POST with a configured key whose type is itinerary, flights or packingList
and whose `data` field is nullish throws before the try block and sends
zero responses. -/
theorem C10_single_response (env : Env) (method : String) (apiKey : Option String)
    (fields : List (String × Json)) (fo : FetchOutcome) :
    (part000_handlerRun env method apiKey fields fo).sent.length =
      (if part000_crashPred method apiKey fields then 0 else 1) := by
  rw [run_length, part000_crashPred]
  by_cases hm : method = "POST"
  · subst hm
    cases hkt : keyTruthy apiKey with
    | false => simp [hkt]
    | true =>
      simp only [hkt, reduceIte, if_true, beq_self_eq_true, Bool.true_and]
      rw [build_crash_count (apiKey.getD "") (lookupStr fields "type")
        (fields.filter (fun kv => !(kv.1 == "type")))]
  · simp [hm, beq_iff_eq]

/-- Counterexample to C10 as stated: an itinerary POST with an object body
that lacks `data` sends zero responses — the template throws outside every
try/catch, so no `res.status().json()` ever runs. -/
theorem C10_single_response_cex :
    (part000_handlerRun envD "POST" (some "k") [("type", Json.str "itinerary")]
        (.transportError "x")).sent = [] ∧
    (part000_handlerRun envD "POST" (some "k") [("type", Json.str "itinerary")]
        (.transportError "x")).sent.length ≠ 1 := by
  have h : part000_handlerRun envD "POST" (some "k") [("type", Json.str "itinerary")]
      (.transportError "x") = ⟨[], 0⟩ := rfl
  exact ⟨by rw [h], by rw [h]; decide⟩

end PlanATrip
